import Mathlib

/-!
Shallow embedding of the CareCast weather bot (`src/main.py`).

The bot's core logic is embedded as executable Lean functions:

* Python string primitives used by the source (`str.lower`, `str.split()`,
  `str.title`, `str.capitalize`, `" ".join`) are modelled character by
  character on ASCII (the only characters the source's logic inspects).
* The city-extraction loop of the `weather` handler (src/main.py lines
  62-72) becomes `scanPreps` / `extractFromTokens` / `extractCity`.
* `get_weather` (lines 24-52) becomes a pure function from a fetch
  outcome (network error, or an HTTP status plus a JSON-shaped payload)
  to an optional `WeatherInfo`.  A `KeyError` on the unchecked
  `data["wind"]` access and an `IndexError` on `data["weather"][0]` are
  caught by the function's `except` clause and yield `none`, exactly as
  in the source.
* The `weather` handler (lines 58-94) becomes a function from a fetch
  collaborator, the session store `temp_data` and the incoming message to
  the updated store plus an ordered trace of events (store write, fetch
  call, outbound replies), so that ordering and reply counts are provable.
* The follow-up handlers `fun_fact_response` and `no_fun_fact`
  (lines 96-102) become reply-text functions.
-/

namespace CareCast

/-- ASCII lower-case letter test (`c` in `a`..`z`). -/
def pyIsLower (c : Char) : Bool := 97 ≤ c.toNat && c.toNat ≤ 122

/-- ASCII upper-case letter test (`c` in `A`..`Z`). -/
def pyIsUpper (c : Char) : Bool := 65 ≤ c.toNat && c.toNat ≤ 90

/-- ASCII letter test, the "cased character" notion driving Python's
`str.title` word boundaries. -/
def pyIsAlpha (c : Char) : Bool := pyIsLower c || pyIsUpper c

/-- Python `str.lower` on one ASCII character. -/
def pyLowerChar (c : Char) : Char :=
  if pyIsUpper c then Char.ofNat (c.toNat + 32) else c

/-- Python `str.upper` on one ASCII character. -/
def pyUpperChar (c : Char) : Char :=
  if pyIsLower c then Char.ofNat (c.toNat - 32) else c

/-- Python `str.lower` (ASCII model): `message_text = update.message.text.lower()`. -/
def pyLower (s : String) : String := ⟨s.data.map pyLowerChar⟩

/-- Helper for `pySplit`: walks the characters, accumulating the current
word reversed in `acc`; whitespace ends the word, empty pieces are dropped,
exactly as Python `str.split()` with no argument. -/
def splitWsAux : List Char → List Char → List String
  | acc, [] => if acc.isEmpty then [] else [⟨acc.reverse⟩]
  | acc, c :: cs =>
    if c.isWhitespace then
      if acc.isEmpty then splitWsAux [] cs
      else ⟨acc.reverse⟩ :: splitWsAux [] cs
    else splitWsAux (c :: acc) cs

/-- Python `str.split()` with no argument: split on whitespace runs,
dropping empty pieces (`words = message_text.split()`). -/
def pySplit (s : String) : List String := splitWsAux [] s.data

/-- Helper for `pyTitle`: the boolean carries whether the previous
character was a letter; a letter after a non-letter is upper-cased, a
letter after a letter is lower-cased, everything else passes through. -/
def pyTitleAux : Bool → List Char → List Char
  | _, [] => []
  | prevAlpha, c :: cs =>
    (if pyIsAlpha c then (if prevAlpha then pyLowerChar c else pyUpperChar c) else c) ::
      pyTitleAux (pyIsAlpha c) cs

/-- Python `str.title` (ASCII model): used by the source as
`" ".join(words[city_index:]).title()`. -/
def pyTitle (s : String) : String := ⟨pyTitleAux false s.data⟩

/-- Python `str.capitalize` (ASCII model): first character upper-cased,
the rest lower-cased.  The source applies it to the condition field,
including to the `"N/A"` default. -/
def pyCapitalize (s : String) : String :=
  match s.data with
  | [] => ""
  | c :: cs => ⟨pyUpperChar c :: cs.map pyLowerChar⟩

/-- Python `sep.join(pieces)`. -/
def pyJoin (sep : String) : List String → String
  | [] => ""
  | [t] => t
  | t :: t' :: ts => t ++ sep ++ pyJoin sep (t' :: ts)

/-- The fixed priority list of src/main.py line 66:
`prepositions = ["in", "for", "at", "of", "near", "around"]`. -/
def prepositions : List String := ["in", "for", "at", "of", "near", "around"]

/-- The preposition loop of the `weather` handler (lines 67-72).  Note the
`break` sits under the `city_index < len(words)` bounds check, so a
preposition whose first occurrence is the final token does not stop the
loop: the scan falls through to the next preposition in the list. -/
def scanPreps : List String → List String → Option String
  | [], _ => none
  | prep :: preps, words =>
    if words.contains prep then
      if words.indexOf prep + 1 < words.length then
        some (pyTitle (pyJoin " " (words.drop (words.indexOf prep + 1))))
      else scanPreps preps words
    else scanPreps preps words

/-- City extraction from the already lower-cased and tokenized message
(lines 63-72): require the literal token `"weather"`, then run the
preposition scan. -/
def extractFromTokens (words : List String) : Option String :=
  if words.contains "weather" then scanPreps prepositions words else none

/-- The complete City Extractor of the `weather` handler (lines 60-72):
lower-case the raw message, split on whitespace, extract. -/
def extractCity (text : String) : Option String :=
  extractFromTokens (pySplit (pyLower text))

/-- Modelled from the spec: the split-point semantics of §4.1 steps 3-5 —
splitting the token sequence at a given preposition's first occurrence
yields the title-cased join of the tokens strictly after it, or no city
when that occurrence is the last token.  Used only to compare the code's
behaviour against the spec's "the first one found is the split point". -/
def specSplitAt (words : List String) (p : String) : Option String :=
  if words.indexOf p + 1 < words.length then
    some (pyTitle (pyJoin " " (words.drop (words.indexOf p + 1))))
  else none

/-- The `"main"` object of the provider payload: the two leaf fields read
by the source, each possibly absent.  Leaf values are modelled as the
strings they render to inside the reply f-string. -/
structure MainObj where
  temp : Option String
  humidity : Option String
deriving DecidableEq

/-- The `"wind"` object of the provider payload. -/
structure WindObj where
  speed : Option String
deriving DecidableEq

/-- One element of the `"weather"` array of the provider payload. -/
structure CondObj where
  description : Option String
deriving DecidableEq

/-- The provider payload, restricted to the keys the source reads; each
top-level key may be absent. -/
structure Payload where
  main : Option MainObj
  weather : Option (List CondObj)
  wind : Option WindObj
deriving DecidableEq

/-- Outcome of the HTTP round trip inside `get_weather`: either an
exception while requesting or decoding (network error, malformed body),
or a response with a status code and a decoded payload. -/
inductive FetchOutcome where
  | netError
  | response (status : Nat) (data : Payload)
deriving DecidableEq

/-- The dictionary built by `get_weather` on success (lines 43-48). -/
structure WeatherInfo where
  temperature : String
  humidity : String
  wind_speed : String
  condition : String
deriving DecidableEq

/-- `get_weather` (lines 24-52).  A non-200 status returns `None`; a
payload missing `"main"` or `"weather"` returns `None`; the unchecked
`data["wind"]` access raises `KeyError` when `"wind"` is absent and
`data["weather"][0]` raises `IndexError` on an empty array — both are
swallowed by the `except` clause, returning `None`.  Otherwise each leaf
is read with `.get(key, "N/A")`, and the condition is `.capitalize()`d. -/
def get_weather : FetchOutcome → Option WeatherInfo
  | .netError => none
  | .response status data =>
    if status ≠ 200 then none
    else
      match data.main, data.weather with
      | some m, some conds =>
        match data.wind, conds with
        | some w, c0 :: _ =>
          some { temperature := m.temp.getD "N/A"
               , humidity := m.humidity.getD "N/A"
               , wind_speed := w.speed.getD "N/A"
               , condition := pyCapitalize (c0.description.getD "N/A") }
        | _, _ => none
      | _, _ => none

/-- Telegram chat identifier. -/
abbrev UserId := Nat

/-- The session store `temp_data`: per-user last extracted city. -/
abbrev Store := UserId → Option String

/-- Observable steps of the `weather` handler, in program order: the
`temp_data[user_id] = city` write, the `get_weather(city)` call, and each
`reply_text` message. -/
inductive Event where
  | setCity (uid : UserId) (city : String)
  | fetchCall (city : String)
  | send (text : String)
deriving DecidableEq

/-- Whether an event is an outbound reply. -/
def isSend : Event → Bool
  | .send _ => true
  | _ => false

/-- The success reply of lines 80-89 (the source's first f-string line
ends in a literal line break after the colon). -/
def summaryText (city : String) (wi : WeatherInfo) : String :=
  "☀️ Hey there! Here's the latest weather update for " ++ city ++ ":\n" ++
  "🌡 Temperature: " ++ wi.temperature ++ "°C\n" ++
  "💧 Humidity: " ++ wi.humidity ++ "%\n" ++
  "🌬 Wind Speed: " ++ wi.wind_speed ++ " km/h\n" ++
  "☁️ Condition: " ++ wi.condition ++ "\n\n" ++
  "Take care, stay hydrated, and have an amazing day ahead! 💙"

/-- The follow-up prompt of line 90. -/
def promptText (city : String) : String :=
  "Hey, want to hear a cool fact about " ++ city ++ "? 😊 Just say 'Yes' or 'No'!"

/-- The fetch-failure apology of line 92. -/
def failText (city : String) : String :=
  "Oh no! 😕 I couldn't fetch the weather for " ++ city ++ ". Maybe try another city? I'm here to help! 💙"

/-- The no-city clarification of line 94. -/
def clarifyText : String :=
  "Oops! I couldn't catch the city name. Try something like: 'What's the weather like in Mumbai?' 😊"

/-- The `weather` handler (lines 58-94), with the fetch collaborator
abstracted as a function from city to `get_weather`'s result.  Returns the
updated session store and the ordered event trace: on extraction the store
is written first, then the fetch runs, then one or two replies go out. -/
def weather (fetch : String → Option WeatherInfo) (st : Store) (uid : UserId)
    (text : String) : Store × List Event :=
  match extractCity text with
  | some city =>
    let st' : Store := fun u => if u = uid then some city else st u
    match fetch city with
    | some wi =>
      (st', [Event.setCity uid city, Event.fetchCall city,
             Event.send (summaryText city wi), Event.send (promptText city)])
    | none =>
      (st', [Event.setCity uid city, Event.fetchCall city,
             Event.send (failText city)])
  | none => (st, [Event.send clarifyText])

/-- The affirmative follow-up handler (lines 96-99):
`temp_data.get(user_id, "this city")` interpolated into the reply. -/
def fun_fact_response (st : Store) (uid : UserId) : String :=
  "Here's a fun fact about " ++ (st uid).getD "this city" ++
  "! 🌍 Did you know...? (Feature coming soon) 💙"

/-- The negative follow-up handler (lines 101-102): a fixed reply. -/
def no_fun_fact : String :=
  "No worries! If you ever need a weather update, just ask! Stay awesome! ☀️💙"

/-- An empty session store. -/
def emptyStore : Store := fun _ => none

/-- A fetch collaborator that always fails. -/
def noFetch : String → Option WeatherInfo := fun _ => none

/-- The condition under which the preposition loop breaks at `p`: `p`
occurs among the tokens and its first occurrence is not the final token. -/
def viable (words : List String) (p : String) : Bool :=
  decide (p ∈ words) && decide (words.indexOf p + 1 < words.length)

/-- The preposition loop selects the first preposition of the priority
list that occurs among the tokens with at least one token after its first
occurrence, and returns the title-cased join of the tokens after it. -/
theorem scanPreps_eq_find (ps words : List String) :
    scanPreps ps words =
      (ps.find? (viable words)).map
        (fun p => pyTitle (pyJoin " " (words.drop (words.indexOf p + 1)))) := by
  induction ps with
  | nil => rfl
  | cons p ps ih =>
    by_cases hc : p ∈ words
    · by_cases hi : words.indexOf p + 1 < words.length
      · rw [List.find?_cons_of_pos]
        · simp [scanPreps, hc, hi]
        · simp [viable, hc, hi]
      · rw [List.find?_cons_of_neg]
        · simpa [scanPreps, hc, hi] using ih
        · simp [viable, hc, hi]
    · rw [List.find?_cons_of_neg]
      · simpa [scanPreps, hc] using ih
      · simp [viable, hc]

/-- C1 (amended): for tokens containing "weather", the City Extractor
splits at the first preposition in the fixed priority list whose first
occurrence is followed by at least one token — a priority-earlier
preposition whose first occurrence is the final token is skipped rather
than taken as the split point; in particular "weather near paris in
france" splits at "in" (the first viable preposition) and returns
"France". -/
theorem extract_splits_at_first_viable_preposition :
    (∀ words : List String, "weather" ∈ words →
       extractFromTokens words =
         (prepositions.find? (viable words)).map
           (fun p => pyTitle (pyJoin " " (words.drop (words.indexOf p + 1))))) ∧
    extractCity "weather near paris in france" = some "France" ∧
    prepositions.find? (viable (pySplit (pyLower "weather near paris in france"))) =
      some "in" := by
  refine ⟨fun words hw => ?_, by decide, by decide⟩
  simp [extractFromTokens, hw, scanPreps_eq_find]

/-- C1 witness: the general split characterization instantiated at the
tokens of "weather near paris in france". -/
theorem extract_splits_at_first_viable_preposition_witness :
    extractFromTokens ["weather", "near", "paris", "in", "france"] =
      (prepositions.find? (viable ["weather", "near", "paris", "in", "france"])).map
        (fun p => pyTitle (pyJoin " "
          (["weather", "near", "paris", "in", "france"].drop
            (["weather", "near", "paris", "in", "france"].indexOf p + 1)))) :=
  extract_splits_at_first_viable_preposition.1
    ["weather", "near", "paris", "in", "france"] (by decide)

/-- C1 counterexample: "weather near paris in" contains "weather" and two
listed prepositions ("near", "in"); the earliest-listed preposition
present is "in", but the split at "in" (whose occurrence is the final
token) yields no city, while the extractor returns "Paris In" — the split
actually taken is at "near", so the extractor does not always split at the
priority-earliest preposition present. -/
theorem extract_priority_scan_counterexample :
    extractCity "weather near paris in" = some "Paris In" ∧
    prepositions.find?
        (fun p => decide (p ∈ pySplit (pyLower "weather near paris in"))) = some "in" ∧
    specSplitAt (pySplit (pyLower "weather near paris in")) "in" = none := by
  decide

/-- C2 counterexample: the extractor on "What's the weather in New York?"
returns "New York?" — the trailing question mark survives whitespace-only
tokenization — and not "New York". -/
theorem extract_new_york_counterexample :
    extractCity "What's the weather in New York?" ≠ some "New York" ∧
    extractCity "What's the weather in New York?" = some "New York?" := by decide

/-- C2 (amended): the City Extractor on "What's the weather in New York?"
returns "New York?" (input lower-cased, output title-cased, trailing
punctuation kept by whitespace tokenization). -/
theorem extract_new_york_roundtrip :
    extractCity "What's the weather in New York?" = some "New York?" := by decide

/-- C5 counterexample: in "weather near london in" the preposition
selected by the priority scan is "in" ("in" is the earliest-listed
preposition present) and its occurrence is the final token, yet the
extractor does not return "no city": it falls through to "near" and
returns "London In". -/
theorem final_token_preposition_counterexample :
    "weather" ∈ pySplit (pyLower "weather near london in") ∧
    prepositions.find?
        (fun p => decide (p ∈ pySplit (pyLower "weather near london in"))) = some "in" ∧
    (pySplit (pyLower "weather near london in")).indexOf "in" + 1 =
      (pySplit (pyLower "weather near london in")).length ∧
    extractCity "weather near london in" = some "London In" := by decide

/-- C5 (amended): with "weather" among the tokens, a matched preposition
whose first occurrence is the final token is skipped and the scan falls
through to the next preposition in priority order; the extractor returns
no city exactly when every listed preposition present among the tokens has
its first occurrence as the final token. -/
theorem no_city_iff_every_preposition_final (words : List String)
    (hw : "weather" ∈ words) :
    extractFromTokens words = none ↔
      ∀ p ∈ prepositions, p ∈ words → ¬(words.indexOf p + 1 < words.length) := by
  simp [extractFromTokens, hw, scanPreps_eq_find, List.find?_eq_none, viable]

/-- C5 witness: the no-city characterization instantiated at the tokens
["weather", "in"], where the only preposition present is the final token
and the extractor indeed returns no city. -/
theorem no_city_iff_every_preposition_final_witness :
    (extractFromTokens ["weather", "in"] = none ↔
      ∀ p ∈ prepositions, p ∈ ["weather", "in"] →
        ¬((["weather", "in"] : List String).indexOf p + 1 <
            (["weather", "in"] : List String).length)) :=
  no_city_iff_every_preposition_final ["weather", "in"] (by decide)

/-- String append acts as list append on the underlying characters. -/
theorem string_data_append (a b : String) : (a ++ b).data = a.data ++ b.data := rfl

/-- A middle factor of a three-part concatenation is an infix of the
character list of the whole. -/
theorem infix_middle (a b c : String) : b.data <:+: (a ++ b ++ c).data :=
  ⟨a.data, c.data, by simp [string_data_append]⟩

/-- C3: for every message with an extracted city and every failing fetch
outcome (network error, non-200 status, or malformed payload), the
`weather` handler terminates with exactly one outbound reply: the apology
that names the city. -/
theorem fetch_failure_single_apology (o : FetchOutcome) (st : Store) (uid : UserId)
    (text city : String) (hc : extractCity text = some city)
    (hf : get_weather o = none) :
    ((weather (fun _ => get_weather o) st uid text).2.filter isSend) =
      [Event.send (failText city)] ∧
    failText city =
      "Oh no! 😕 I couldn't fetch the weather for " ++
        (city ++ ". Maybe try another city? I'm here to help! 💙") ∧
    city.data <:+: (failText city).data := by
  refine ⟨?_, by simp [failText, String.append_assoc], ?_⟩
  · simp [weather, hc, hf, isSend]
  · exact infix_middle "Oh no! 😕 I couldn't fetch the weather for " city
      ". Maybe try another city? I'm here to help! 💙"

/-- C3 witness: a network error on "weather in london" yields exactly the
apology naming "London". -/
theorem fetch_failure_single_apology_witness :
    ((weather (fun _ => get_weather FetchOutcome.netError) emptyStore 0
        "weather in london").2.filter isSend) = [Event.send (failText "London")] ∧
    failText "London" =
      "Oh no! 😕 I couldn't fetch the weather for " ++
        ("London" ++ ". Maybe try another city? I'm here to help! 💙") ∧
    "London".data <:+: (failText "London").data :=
  fetch_failure_single_apology FetchOutcome.netError emptyStore 0
    "weather in london" "London" (by decide) rfl

/-- C8: when no city is extracted, the handler emits exactly the
clarification reply, which shows an example phrasing, and returns the
session store unchanged (the same store, for every user). -/
theorem no_city_clarification_no_mutation (fetch : String → Option WeatherInfo)
    (st : Store) (uid : UserId) (text : String) (h : extractCity text = none) :
    weather fetch st uid text = (st, [Event.send clarifyText]) ∧
    (∀ u : UserId, (weather fetch st uid text).1 u = st u) ∧
    clarifyText =
      "Oops! I couldn't catch the city name. Try something like: 'What's the weather like in Mumbai?' 😊" := by
  refine ⟨?_, ?_, rfl⟩ <;> simp [weather, h]

/-- C8 witness: "hello" extracts no city; the clarification goes out and
the empty store is returned untouched. -/
theorem no_city_clarification_no_mutation_witness :
    weather noFetch emptyStore 0 "hello" = (emptyStore, [Event.send clarifyText]) ∧
    (∀ u : UserId, (weather noFetch emptyStore 0 "hello").1 u = emptyStore u) ∧
    clarifyText =
      "Oops! I couldn't catch the city name. Try something like: 'What's the weather like in Mumbai?' 😊" :=
  no_city_clarification_no_mutation noFetch emptyStore 0 "hello" (by decide)

/-- C9: when a city is extracted, the user's session entry is overwritten
with that city, and in the handler's event trace the store write comes
before the fetch call; the entry holds the city for every fetch outcome,
in particular after a failed fetch. -/
theorem city_stored_before_fetch (fetch : String → Option WeatherInfo) (st : Store)
    (uid : UserId) (text city : String) (h : extractCity text = some city) :
    (weather fetch st uid text).1 uid = some city ∧
    (weather fetch st uid text).2.take 2 =
      [Event.setCity uid city, Event.fetchCall city] := by
  cases hf : fetch city <;> simp [weather, h, hf]

/-- C9 witness: on "weather in london" with a failing fetch, the store
still records "London" and the write precedes the fetch call. -/
theorem city_stored_before_fetch_witness :
    (weather noFetch emptyStore 0 "weather in london").1 0 = some "London" ∧
    (weather noFetch emptyStore 0 "weather in london").2.take 2 =
      [Event.setCity 0 "London", Event.fetchCall "London"] :=
  city_stored_before_fetch noFetch emptyStore 0 "weather in london" "London" (by decide)

set_option maxRecDepth 4096 in
/-- C4 counterexample: after a successful weather query stored "Chennai"
for user 7, the negative follow-up reply does not mention "Chennai" (it is
a fixed acknowledgment with no city reference), contradicting the claim
that both follow-up replies reference the queried city. -/
theorem negative_reply_no_city_counterexample :
    (weather
        (fun _ => get_weather (FetchOutcome.response 200
          ⟨some ⟨some "30", some "40"⟩, some [⟨some "clear sky"⟩], some ⟨some "5"⟩⟩))
        emptyStore 7 "weather in chennai").1 7 = some "Chennai" ∧
    ¬ ("Chennai".data <:+: no_fun_fact.data) := by decide

/-- C4 (amended): the affirmative follow-up reply names the stored city —
"Chennai" after a successful query for Chennai — and the placeholder
"this city" when no session entry exists, raising no error; the negative
follow-up reply is a fixed acknowledgment that references no city. -/
theorem followup_reply_contents (st : Store) (uid : UserId) :
    (∀ city, st uid = some city →
       fun_fact_response st uid =
         "Here's a fun fact about " ++ city ++
           "! 🌍 Did you know...? (Feature coming soon) 💙" ∧
       city.data <:+: (fun_fact_response st uid).data) ∧
    (st uid = none →
       "this city".data <:+: (fun_fact_response st uid).data) ∧
    no_fun_fact =
      "No worries! If you ever need a weather update, just ask! Stay awesome! ☀️💙" := by
  refine ⟨fun city hcity => ⟨?_, ?_⟩, fun hnone => ?_, rfl⟩
  · simp [fun_fact_response, hcity]
  · simp only [fun_fact_response, hcity, Option.getD_some]
    exact infix_middle "Here's a fun fact about " city
      "! 🌍 Did you know...? (Feature coming soon) 💙"
  · simp only [fun_fact_response, hnone, Option.getD_none]
    exact infix_middle "Here's a fun fact about " "this city"
      "! 🌍 Did you know...? (Feature coming soon) 💙"

/-- C4 witness: with "Chennai" stored the affirmative reply names
"Chennai"; with an empty store it names "this city"; the negative reply is
the fixed acknowledgment.  Both store shapes are discharged concretely. -/
theorem followup_reply_contents_witness :
    ("Chennai".data <:+:
      (fun_fact_response (fun _ => some "Chennai") 7).data) ∧
    ("this city".data <:+: (fun_fact_response emptyStore 7).data) ∧
    no_fun_fact =
      "No worries! If you ever need a weather update, just ask! Stay awesome! ☀️💙" :=
  ⟨((followup_reply_contents (fun _ => some "Chennai") 7).1 "Chennai" rfl).2,
   (followup_reply_contents emptyStore 7).2.1 rfl,
   (followup_reply_contents emptyStore 7).2.2⟩

/-- C7 counterexample: with status 200 and "main" and "weather" present
but the "wind" object missing, `get_weather` returns no data at all (the
`data["wind"]` access raises and the apology path runs) instead of a
summary whose wind speed shows "N/A" while the other fields are shown;
and with all objects present but no "description" key, the condition
field defaults to "N/a" — the sentinel goes through `capitalize()` — not
"N/A". -/
theorem summary_defaults_counterexample :
    get_weather (FetchOutcome.response 200
        ⟨some ⟨some "25", some "50"⟩, some [⟨some "clear sky"⟩], none⟩) = none ∧
    (get_weather (FetchOutcome.response 200
        ⟨some ⟨some "25", some "50"⟩, some [⟨none⟩], some ⟨some "5"⟩⟩)).map
      WeatherInfo.condition = some "N/a" := by decide

/-- C7 (amended): on a 200 response whose payload carries "main", a
non-empty "weather" array and a "wind" object, the fetch succeeds and the
temperature, humidity and wind-speed fields each independently default to
"N/A" when their key is missing, while the condition field defaults to
"N/a" (the sentinel is capitalized like any description); the handler then
sends exactly two messages, the summary followed by the yes/no prompt.  A
payload with no "wind" object at all instead fails the whole fetch. -/
theorem summary_field_defaults (m : MainObj) (w : WindObj) (c0 : CondObj)
    (cs : List CondObj) (st : Store) (uid : UserId) (text city : String)
    (hc : extractCity text = some city) :
    ∃ wi : WeatherInfo,
      get_weather (FetchOutcome.response 200 ⟨some m, some (c0 :: cs), some w⟩) =
        some wi ∧
      wi.temperature = m.temp.getD "N/A" ∧
      wi.humidity = m.humidity.getD "N/A" ∧
      wi.wind_speed = w.speed.getD "N/A" ∧
      wi.condition = pyCapitalize (c0.description.getD "N/A") ∧
      (weather (fun _ => some wi) st uid text).2.filter isSend =
        [Event.send (summaryText city wi), Event.send (promptText city)] ∧
      (∀ p : Payload, p.wind = none →
        get_weather (FetchOutcome.response 200 p) = none) := by
  refine ⟨⟨m.temp.getD "N/A", m.humidity.getD "N/A", w.speed.getD "N/A",
      pyCapitalize (c0.description.getD "N/A")⟩,
    by simp [get_weather], rfl, rfl, rfl, rfl, ?_, ?_⟩
  · simp [weather, hc, isSend]
  · rintro ⟨pm, pw, pwind⟩ hp
    simp only at hp
    subst hp
    cases pm <;> cases pw <;> simp [get_weather]

/-- C7 witness: a payload whose leaves are all missing except humidity
yields temperature "N/A", humidity "50", wind speed "N/A" and condition
"N/a", and the handler for "weather in pune" sends the summary and then
the prompt. -/
theorem summary_field_defaults_witness :
    ∃ wi : WeatherInfo,
      get_weather (FetchOutcome.response 200
          ⟨some ⟨none, some "50"⟩, some [⟨none⟩], some ⟨none⟩⟩) = some wi ∧
      wi.temperature = (none : Option String).getD "N/A" ∧
      wi.humidity = (some "50").getD "N/A" ∧
      wi.wind_speed = (none : Option String).getD "N/A" ∧
      wi.condition = pyCapitalize ((none : Option String).getD "N/A") ∧
      (weather (fun _ => some wi) emptyStore 0 "weather in pune").2.filter isSend =
        [Event.send (summaryText "Pune" wi), Event.send (promptText "Pune")] ∧
      (∀ p : Payload, p.wind = none →
        get_weather (FetchOutcome.response 200 p) = none) :=
  summary_field_defaults ⟨none, some "50"⟩ ⟨none⟩ ⟨none⟩ [] emptyStore 0
    "weather in pune" "Pune" (by decide)

/-- A token different from "weather", from `p` and from every token of
`X` does not occur in the token sequence `"weather" p X`. -/
theorem not_mem_template (q p : String) (X : List String) (h1 : q ≠ "weather")
    (h2 : q ≠ p) (h3 : q ∉ X) : q ∉ ("weather" :: p :: X) := by
  simp [h1, h2, h3]

/-- The preposition loop skips a preposition absent from the tokens. -/
theorem scanPreps_cons_skip (prep : String) (preps words : List String)
    (h : prep ∉ words) : scanPreps (prep :: preps) words = scanPreps preps words := by
  simp [scanPreps, h]

/-- The preposition loop breaks at the head preposition on the token
sequence `"weather" prep X` with `X` non-empty, returning the title-cased
join of `X`. -/
theorem scanPreps_cons_hit (prep : String) (preps X : List String)
    (hne : prep ≠ "weather") (hX : X ≠ []) :
    scanPreps (prep :: preps) ("weather" :: prep :: X) =
      some (pyTitle (pyJoin " " X)) := by
  have hmem : prep ∈ ("weather" :: prep :: X) := by simp
  have hidx : ("weather" :: prep :: X).indexOf prep = 1 := by
    rw [List.indexOf_cons_ne _ (Ne.symm hne), List.indexOf_cons_self]
  have hlen : ("weather" :: prep :: X).indexOf prep + 1 <
      ("weather" :: prep :: X).length := by
    rw [hidx]
    cases X with
    | nil => exact absurd rfl hX
    | cons t ts => simp
  simp [scanPreps, hmem, hlen, hidx, hX]

/-- On the token sequence `"weather" p X` the "weather" guard passes. -/
theorem extractFromTokens_template (p : String) (X : List String) :
    extractFromTokens ("weather" :: p :: X) =
      scanPreps prepositions ("weather" :: p :: X) := by
  simp [extractFromTokens]

/-- C6 (amended): for each preposition p of the priority list and every
non-empty token sequence X containing no preposition listed before p, the
extractor on the tokens "weather p X" returns the title-cased single-space
join of X.  (When X contains an earlier-listed preposition the split moves
there instead — see the counterexample.) -/
theorem extract_template_title (p : String) (X : List String)
    (hp : p ∈ prepositions) (hX : X ≠ [])
    (hclean : ∀ q ∈ prepositions.takeWhile (fun r => r ≠ p), q ∉ X) :
    extractFromTokens ("weather" :: p :: X) = some (pyTitle (pyJoin " " X)) := by
  rw [extractFromTokens_template]
  simp only [prepositions, List.mem_cons, List.not_mem_nil, or_false] at hp
  have hcl : ∀ q, q ∈ prepositions.takeWhile (fun r => r ≠ p) → q ∉ X := hclean
  simp only [prepositions]
  rcases hp with rfl | rfl | rfl | rfl | rfl | rfl
  · exact scanPreps_cons_hit "in" _ X (by decide) hX
  · rw [scanPreps_cons_skip "in" _ _
      (not_mem_template "in" "for" X (by decide) (by decide) (hcl "in" (by decide)))]
    exact scanPreps_cons_hit "for" _ X (by decide) hX
  · rw [scanPreps_cons_skip "in" _ _
      (not_mem_template "in" "at" X (by decide) (by decide) (hcl "in" (by decide)))]
    rw [scanPreps_cons_skip "for" _ _
      (not_mem_template "for" "at" X (by decide) (by decide) (hcl "for" (by decide)))]
    exact scanPreps_cons_hit "at" _ X (by decide) hX
  · rw [scanPreps_cons_skip "in" _ _
      (not_mem_template "in" "of" X (by decide) (by decide) (hcl "in" (by decide)))]
    rw [scanPreps_cons_skip "for" _ _
      (not_mem_template "for" "of" X (by decide) (by decide) (hcl "for" (by decide)))]
    rw [scanPreps_cons_skip "at" _ _
      (not_mem_template "at" "of" X (by decide) (by decide) (hcl "at" (by decide)))]
    exact scanPreps_cons_hit "of" _ X (by decide) hX
  · rw [scanPreps_cons_skip "in" _ _
      (not_mem_template "in" "near" X (by decide) (by decide) (hcl "in" (by decide)))]
    rw [scanPreps_cons_skip "for" _ _
      (not_mem_template "for" "near" X (by decide) (by decide) (hcl "for" (by decide)))]
    rw [scanPreps_cons_skip "at" _ _
      (not_mem_template "at" "near" X (by decide) (by decide) (hcl "at" (by decide)))]
    rw [scanPreps_cons_skip "of" _ _
      (not_mem_template "of" "near" X (by decide) (by decide) (hcl "of" (by decide)))]
    exact scanPreps_cons_hit "near" _ X (by decide) hX
  · rw [scanPreps_cons_skip "in" _ _
      (not_mem_template "in" "around" X (by decide) (by decide) (hcl "in" (by decide)))]
    rw [scanPreps_cons_skip "for" _ _
      (not_mem_template "for" "around" X (by decide) (by decide) (hcl "for" (by decide)))]
    rw [scanPreps_cons_skip "at" _ _
      (not_mem_template "at" "around" X (by decide) (by decide) (hcl "at" (by decide)))]
    rw [scanPreps_cons_skip "of" _ _
      (not_mem_template "of" "around" X (by decide) (by decide) (hcl "of" (by decide)))]
    rw [scanPreps_cons_skip "near" _ _
      (not_mem_template "near" "around" X (by decide) (by decide) (hcl "near" (by decide)))]
    exact scanPreps_cons_hit "around" _ X (by decide) hX

/-- C6 witness: the template theorem at p = "near" and X = ["lake", "tahoe"]:
"weather near lake tahoe" extracts "Lake Tahoe". -/
theorem extract_template_title_witness :
    extractFromTokens ["weather", "near", "lake", "tahoe"] =
      some (pyTitle (pyJoin " " ["lake", "tahoe"])) :=
  extract_template_title "near" ["lake", "tahoe"] (by decide) (by decide) (by decide)

/-- C6 counterexample: with the non-empty token sequence X = ["in",
"paris"], the extractor on "weather for in paris" returns "Paris", not the
title-cased form "In Paris" of X: the higher-priority "in" occurring
inside X takes the split instead of the template's "for". -/
theorem extract_template_counterexample :
    extractCity "weather for in paris" = some "Paris" ∧
    pyTitle (pyJoin " " ["in", "paris"]) = "In Paris" ∧
    extractCity "weather for in paris" ≠ some (pyTitle (pyJoin " " ["in", "paris"])) := by
  decide

/-- A word accumulated from a non-empty reversed buffer is non-empty. -/
theorem mk_reverse_ne_empty (acc : List Char) (h : ¬ acc.isEmpty = true) :
    (⟨acc.reverse⟩ : String) ≠ "" := by
  intro he
  have hd : acc.reverse = ([] : List Char) := congrArg String.data he
  rw [List.reverse_eq_nil_iff] at hd
  exact h (by simp [hd])

/-- Every token produced by the whitespace splitter is non-empty. -/
theorem splitWsAux_tokens_ne (cs : List Char) :
    ∀ acc : List Char, ∀ t ∈ splitWsAux acc cs, t ≠ "" := by
  induction cs with
  | nil =>
    intro acc t ht
    simp only [splitWsAux] at ht
    split at ht
    · simp at ht
    · rename_i hne
      simp only [List.mem_singleton] at ht
      subst ht
      exact mk_reverse_ne_empty acc hne
  | cons c cs ih =>
    intro acc t ht
    simp only [splitWsAux] at ht
    split at ht
    · split at ht
      · exact ih [] t ht
      · rename_i hne
        rcases List.mem_cons.mp ht with hh | hh
        · subst hh
          exact mk_reverse_ne_empty acc hne
        · exact ih [] t hh
    · exact ih (c :: acc) t ht

/-- Every token of `pySplit` is non-empty, as with Python `str.split()`. -/
theorem pySplit_tokens_ne (s : String) : ∀ t ∈ pySplit s, t ≠ "" :=
  fun t ht => splitWsAux_tokens_ne s.data [] t ht

/-- Title-casing preserves the character count. -/
theorem pyTitleAux_length (cs : List Char) :
    ∀ b : Bool, (pyTitleAux b cs).length = cs.length := by
  induction cs with
  | nil => intro b; rfl
  | cons c cs ih => intro b; simp [pyTitleAux, ih]

/-- Title-casing a non-empty string gives a non-empty string. -/
theorem pyTitle_ne_empty (s : String) (h : s ≠ "") : pyTitle s ≠ "" := by
  intro he
  apply h
  have hd : pyTitleAux false s.data = ([] : List Char) := congrArg String.data he
  have hl : s.data.length = 0 := by
    rw [← pyTitleAux_length s.data false, hd]
    rfl
  exact String.ext ((List.eq_nil_of_length_eq_zero hl).trans rfl)

/-- The single-space join of a token list with a non-empty head is
non-empty. -/
theorem pyJoin_cons_ne_empty (t : String) (ts : List String) (h : t ≠ "") :
    pyJoin " " (t :: ts) ≠ "" := by
  cases ts with
  | nil => simpa [pyJoin] using h
  | cons t' ts =>
    intro he
    have hd : (t ++ " " ++ pyJoin " " (t' :: ts)).data = ([] : List Char) :=
      congrArg String.data he
    rw [string_data_append, string_data_append] at hd
    simp at hd

/-- C10: whenever the City Extractor returns a city, that city is the
title-cased single-space join of a non-empty suffix of the whitespace
tokens of the lower-cased message, each token itself non-empty; in
particular the extracted city is never the empty string, so no reply or
session entry built from it carries an empty city name. -/
theorem extracted_city_nonempty (text city : String)
    (h : extractCity text = some city) :
    ∃ ts : List String, ts ≠ [] ∧ (∀ t ∈ ts, t ≠ "") ∧
      ts <:+ pySplit (pyLower text) ∧
      city = pyTitle (pyJoin " " ts) ∧ city ≠ "" := by
  unfold extractCity extractFromTokens at h
  rw [scanPreps_eq_find] at h
  split at h
  case isFalse => exact absurd h (by simp)
  case isTrue hmem =>
    rcases Option.map_eq_some'.mp h with ⟨p, hfind, hcity⟩
    have hviable := List.find?_some hfind
    simp only [viable, Bool.and_eq_true, decide_eq_true_eq] at hviable
    have hlt : (pySplit (pyLower text)).indexOf p + 1 <
        (pySplit (pyLower text)).length := hviable.2
    refine ⟨(pySplit (pyLower text)).drop ((pySplit (pyLower text)).indexOf p + 1),
      ?_, ?_, List.drop_suffix _ _, hcity.symm, ?_⟩
    · intro hnil
      rw [List.drop_eq_nil_iff] at hnil
      omega
    · intro t ht
      exact pySplit_tokens_ne (pyLower text) t (List.mem_of_mem_drop ht)
    · cases hd : (pySplit (pyLower text)).drop
          ((pySplit (pyLower text)).indexOf p + 1) with
      | nil =>
        rw [List.drop_eq_nil_iff] at hd
        omega
      | cons t ts' =>
        rw [← hcity, hd]
        have hmd : t ∈ (pySplit (pyLower text)).drop
            ((pySplit (pyLower text)).indexOf p + 1) := by
          rw [hd]
          exact List.mem_cons_self t ts'
        have htne : t ≠ "" :=
          pySplit_tokens_ne (pyLower text) t (List.mem_of_mem_drop hmd)
        exact pyTitle_ne_empty _ (pyJoin_cons_ne_empty t ts' htne)

/-- C10 witness: "weather in new york" extracts "New York", the
title-cased join of the non-empty token suffix, and it is non-empty. -/
theorem extracted_city_nonempty_witness :
    ∃ ts : List String, ts ≠ [] ∧ (∀ t ∈ ts, t ≠ "") ∧
      ts <:+ pySplit (pyLower "weather in new york") ∧
      "New York" = pyTitle (pyJoin " " ts) ∧ "New York" ≠ "" :=
  extracted_city_nonempty "weather in new york" "New York" (by decide)

end CareCast
